import Mathlib

/-!
Shallow embedding of the onit cluster lifecycle controller
(`pkg/onit/cluster.go`, `pkg/onit/onos-topo.go`) and proofs of the
claims about it.  The Kubernetes client is modelled as an oracle: each
API call the controller makes is a parameter of the embedded function
(its result), and the embedding records the trace of calls actually
issued so that sequencing claims can be stated.
-/

namespace Onit

/-- A plain Go `error` value, modelled by its message. -/
def GoError := String

deriving instance DecidableEq, Repr for GoError

/-- A Kubernetes API error as seen through `k8serrors.IsAlreadyExists` /
`k8serrors.IsNotFound`: the message plus the two predicates the
controller inspects. -/
structure K8sError where
  msg : String
  isAlreadyExists : Bool
  isNotFound : Bool
deriving DecidableEq, Repr

/-- Modelled from the spec: the `console.ErrorStatus` returned by the
`console.StatusWriter` (the console package is not part of the sources).
Per the Status Reporter contract, `Fail(err)` marks the last started
step failed, records the error, and returns a status representing
overall failure whose recorded label is that step's label; `Succeed()`
returns a status representing overall success.  `Failed()` is the
`failed` field. -/
structure ErrorStatus where
  failed : Bool
  label : Option String
  err : Option GoError
deriving DecidableEq, Repr

/-- `Failed()` of a status object. -/
def ErrorStatus.Failed (s : ErrorStatus) : Bool := s.failed

/-- The status returned by `status.Succeed()`. -/
def succeedStatus : ErrorStatus := ⟨false, none, none⟩

/-- The status returned by `status.Fail(err)` when the last started
step has the given label. -/
def failStatus (label : String) (e : GoError) : ErrorStatus :=
  ⟨true, some label, some e⟩

/-! ## imageName (cluster.go:51-66) -/

/-- `imagePrefix` from cluster.go: `registry + "/"` when the configured
registry is non-empty, `""` otherwise. -/
def imagePrefix (registry : String) : String :=
  if registry ≠ "" then registry ++ "/" else ""

/-- `imageName` from cluster.go: prefix, image, `":"`, tag concatenated. -/
def imageName (registry image tag : String) : String :=
  imagePrefix registry ++ image ++ ":" ++ tag

/-! ## Setup (cluster.go:69-117)

Each of the nine setup steps is a call into the gateway whose outcome
(`none` = success, `some e` = error) is a field of `SetupGateway`.  The
embedding returns the `console.ErrorStatus` Setup returns together with
the list of step labels whose builders were invoked, in order. -/

/-- Outcomes of the nine gateway calls made by `Setup`, in program
order: `setupRBAC`, `setupAtomixController`, `setupPartitions`,
`createOnosSecret`, `setupOnosTopo`, `setupOnosConfig`, `setupGUI`,
`setupOnosCli`, `setupIngress`. -/
structure SetupGateway where
  rbac : Option GoError
  atomixController : Option GoError
  partitions : Option GoError
  secret : Option GoError
  onosTopo : Option GoError
  onosConfig : Option GoError
  gui : Option GoError
  onosCli : Option GoError
  ingress : Option GoError
deriving DecidableEq, Repr

/-- The step labels `Setup` passes to `status.Start`, in order. -/
def setupLabels : List String :=
  ["Setting up RBAC",
   "Setting up Atomix controller",
   "Starting Raft partitions",
   "Adding secrets",
   "Bootstrapping onos-topo cluster",
   "Bootstrapping onos-config cluster",
   "Setting up GUI",
   "Setting up CLI",
   "Creating ingress for services"]

/-- The nine setup steps with their gateway outcomes, in program order. -/
def setupStepList (g : SetupGateway) : List (String × Option GoError) :=
  [("Setting up RBAC", g.rbac),
   ("Setting up Atomix controller", g.atomixController),
   ("Starting Raft partitions", g.partitions),
   ("Adding secrets", g.secret),
   ("Bootstrapping onos-topo cluster", g.onosTopo),
   ("Bootstrapping onos-config cluster", g.onosConfig),
   ("Setting up GUI", g.gui),
   ("Setting up CLI", g.onosCli),
   ("Creating ingress for services", g.ingress)]

/-- Run a list of gated steps the way `Setup` does: start the step,
invoke its builder; on error return `status.Fail(err)` at once (no
later builder is invoked), otherwise `status.Succeed()` and continue.
Returns the final status and the labels of the steps whose builders
were invoked. -/
def runSetupSteps : List (String × Option GoError) → ErrorStatus × List String
  | [] => (succeedStatus, [])
  | (label, res) :: rest =>
    match res with
    | some e => (failStatus label e, [label])
    | none =>
      let r := runSetupSteps rest
      (r.1, label :: r.2)

/-- `Setup` from cluster.go against the given gateway. -/
def Setup (g : SetupGateway) : ErrorStatus × List String :=
  runSetupSteps (setupStepList g)

/-! ## setupRBAC (cluster.go:120-250)

Each `Create` call's result is an oracle parameter (`none` = created,
`some e` = the API error). -/

/-- `createClusterRole` from cluster.go: the create error is swallowed
when `k8serrors.IsAlreadyExists(err)` holds, otherwise returned. -/
def createClusterRole (createRes : Option K8sError) : Option K8sError :=
  match createRes with
  | some e => if e.isAlreadyExists then none else some e
  | none => none

/-- `createClusterRoleBinding` from cluster.go: the create error is
returned verbatim. -/
def createClusterRoleBinding (createRes : Option K8sError) : Option K8sError :=
  createRes

/-- `createServiceAccount` from cluster.go: the create error is
returned verbatim. -/
def createServiceAccount (createRes : Option K8sError) : Option K8sError :=
  createRes

/-- `createOnosTopoConfigMap` from onos-topo.go: the create error is
returned verbatim. -/
def createOnosTopoConfigMap (createRes : Option K8sError) : Option K8sError :=
  createRes

/-- `createOnosTopoService` from onos-topo.go: the create error is
returned verbatim. -/
def createOnosTopoService (createRes : Option K8sError) : Option K8sError :=
  createRes

/-- `createOnosTopoDeployment` from onos-topo.go: the create error is
returned verbatim. -/
def createOnosTopoDeployment (createRes : Option K8sError) : Option K8sError :=
  createRes

/-- `setupRBAC` from cluster.go: role, binding, service account in
order, aborting on the first error. -/
def setupRBAC (roleRes bindingRes accountRes : Option K8sError) : Option K8sError :=
  match createClusterRole roleRes with
  | some e => some e
  | none =>
    match createClusterRoleBinding bindingRes with
    | some e => some e
    | none => createServiceAccount accountRes

/-! ## awaitOnosTopoDeploymentReady (onos-topo.go:241-278) -/

/-- Modelled from the spec: the image-tag sentinel `Debug` (the
"debug" sentinel; the constants file defining `Debug`/`Latest` is not
among the sources). -/
def Debug : String := "debug"

/-- Modelled from the spec plus the field uses in cli/create.go: the
`ClusterConfig` struct (its defining file is not among the sources).
`ImageTags` is the component-name → tag map. -/
structure ClusterConfig where
  Registry : String
  Preset : String
  ImageTags : String → String
  ConfigNodes : Int
  TopoNodes : Int
  Partitions : Int
  PartitionSize : Int

/-- What one poll of the pod list reveals about a pod: its name and
whether `len(Status.ContainerStatuses) > 0 &&
Status.ContainerStatuses[0].State.Running != nil`. -/
structure PodObs where
  name : String
  hasRunningContainer : Bool
deriving DecidableEq, Repr

/-- One polling iteration's observations: the pod list result and the
deployment's `Status.ReadyReplicas` result. -/
structure TopoPollObs where
  pods : Except K8sError (List PodObs)
  readyReplicas : Except K8sError Int

/-- The environment `awaitOnosTopoDeploymentReady` polls: observations
indexed by iteration, and the result of the debugger-attach remote
command (`dlv --init <(echo "exit -c") connect 127.0.0.1:40000`) on a
given pod name. -/
structure TopoAwaitEnv where
  obs : ℕ → TopoPollObs
  exec : String → Option GoError

/-- State of the wait: the `unblocked` set (as the list of inserted pod
names) and the trace of pods on which the debugger-attach command was
executed, in order. -/
structure AwaitState where
  unblocked : List String
  attached : List String
deriving DecidableEq, Repr

/-- The per-pod loop of `awaitOnosTopoDeploymentReady`: a pod not yet
in `unblocked` whose first container is running triggers the
debugger-attach exec when `c.config.ImageTags["config"]` equals the
debug sentinel (an exec error aborts the wait), and is then marked
unblocked. -/
def awaitPods (cfg : ClusterConfig) (exec : String → Option GoError) :
    List PodObs → AwaitState → AwaitState × Option GoError
  | [], s => (s, none)
  | pod :: rest, s =>
    if pod.name ∈ s.unblocked ∨ pod.hasRunningContainer = false then
      awaitPods cfg exec rest s
    else
      if cfg.ImageTags "config" = Debug then
        let s1 : AwaitState := ⟨s.unblocked, s.attached ++ [pod.name]⟩
        match exec pod.name with
        | some e => (s1, some e)
        | none => awaitPods cfg exec rest ⟨s1.unblocked ++ [pod.name], s1.attached⟩
      else
        awaitPods cfg exec rest ⟨s.unblocked ++ [pod.name], s.attached⟩

/-- Result of the (fuel-bounded) wait loop: `ret none` = the function
returned nil, `ret (some e)` = it returned the error `e`, `spin` = the
fuel ran out while the loop was still polling. -/
inductive AwaitOutcome
  | ret (res : Option GoError)
  | spin
deriving DecidableEq, Repr

/-- The polling loop of `awaitOnosTopoDeploymentReady`, one fuel unit
per iteration: list the pods (error aborts), run the per-pod unblock
loop, get the deployment (error aborts), return once
`int(dep.Status.ReadyReplicas) == c.config.TopoNodes`, else sleep and
repeat. -/
def awaitTopoLoop (cfg : ClusterConfig) (env : TopoAwaitEnv) :
    ℕ → ℕ → AwaitState → AwaitOutcome × AwaitState
  | 0, _, s => (.spin, s)
  | fuel + 1, t, s =>
    match (env.obs t).pods with
    | .error e => (.ret (some e.msg), s)
    | .ok pods =>
      match awaitPods cfg env.exec pods s with
      | (s1, some e) => (.ret (some e), s1)
      | (s1, none) =>
        match (env.obs t).readyReplicas with
        | .error e => (.ret (some e.msg), s1)
        | .ok replicas =>
          if replicas = cfg.TopoNodes then (.ret none, s1)
          else awaitTopoLoop cfg env fuel (t + 1) s1

/-- `awaitOnosTopoDeploymentReady` from onos-topo.go, starting from an
empty `unblocked` map, bounded by the given fuel. -/
def awaitOnosTopoDeploymentReady (cfg : ClusterConfig) (env : TopoAwaitEnv)
    (fuel : ℕ) : AwaitOutcome × AwaitState :=
  awaitTopoLoop cfg env fuel 0 ⟨[], []⟩

/-! ## Two-step lifecycle operations (cluster.go:253-285, 475-503) -/

/-- The two steps of a lifecycle operation: provisioning/tearing down
the external resource, and reconciling topology. -/
inductive LifecycleStep
  | provision
  | reconcile
deriving DecidableEq, Repr

/-- Observable outcome of a lifecycle operation: the returned status,
the steps whose bodies were invoked (in order), and the errors passed
to `status.Fail` during the call (in order). -/
structure LifecycleOutcome where
  status : ErrorStatus
  stepsRun : List LifecycleStep
  recordedFails : List GoError
deriving DecidableEq, Repr

/-- `AddSimulator` from cluster.go: a `setupSimulator` error returns
`status.Fail(err)` immediately; otherwise `addSimulatorToTopo` runs and
its error returns `status.Fail(err)`. -/
def AddSimulator (setupRes topoRes : Option GoError) : LifecycleOutcome :=
  match setupRes with
  | some e => ⟨failStatus "Setting up simulator" e, [.provision], [e]⟩
  | none =>
    match topoRes with
    | some e => ⟨failStatus "Adding simulator to topo" e, [.provision, .reconcile], [e]⟩
    | none => ⟨succeedStatus, [.provision, .reconcile], []⟩

/-- `AddNetwork` from cluster.go: a `setupNetwork` error returns
`status.Fail(err)` immediately; otherwise `addNetworkToTopo` runs and
its error returns `status.Fail(err)`. -/
def AddNetwork (setupRes topoRes : Option GoError) : LifecycleOutcome :=
  match setupRes with
  | some e => ⟨failStatus "Setting up network" e, [.provision], [e]⟩
  | none =>
    match topoRes with
    | some e => ⟨failStatus "Adding network to topo" e, [.provision, .reconcile], [e]⟩
    | none => ⟨succeedStatus, [.provision, .reconcile], []⟩

/-- `RemoveSimulator` from cluster.go: a `teardownSimulator` error is
passed to `status.Fail` but not returned; `removeSimulatorFromConfig`
always runs, and only its error is returned as a failure. -/
def RemoveSimulator (teardownRes reconfigRes : Option GoError) : LifecycleOutcome :=
  let fails1 : List GoError :=
    match teardownRes with
    | some e => [e]
    | none => []
  match reconfigRes with
  | some e => ⟨failStatus "Reconfiguring topology" e, [.provision, .reconcile], fails1 ++ [e]⟩
  | none => ⟨succeedStatus, [.provision, .reconcile], fails1⟩

/-! ## RemoveNetwork / removeNetworkFromConfig
(cluster.go:488-503, onos-topo.go:458-478) -/

/-- A scalar of the generic document `yaml.Unmarshal` produces from the
stored network configuration. -/
inductive YamlVal
  | yint (n : Int)
  | ystr (s : String)
deriving DecidableEq, Repr

/-- A ConfigMap item as `removeNetworkFromConfig` consumes it: the
result of `yaml.Unmarshal` on its `BinaryData["config"]` (an unmarshal
error, or the key–value document). -/
structure NetworkConfigMap where
  config : Except GoError (List (String × YamlVal))

/-- A Go computation that either returns or panics. -/
inductive GoOutcome (α : Type)
  | ret (a : α)
  | panic (msg : String)
deriving DecidableEq, Repr

/-- The removal loop of `removeNetworkFromConfig`: for `i` from 0,
device name `<name>-s<i>`, `removeDevice` on each, stopping at the
first error.  Returns the trace of device names removed and the
result. -/
def removeDevicesLoop (name : String) (removeRes : String → Option GoError) :
    ℕ → ℕ → List String × Option GoError
  | 0, _ => ([], none)
  | n + 1, i =>
    let deviceName := name ++ "-s" ++ toString i
    match removeRes deviceName with
    | some e => ([deviceName], some e)
    | none =>
      let r := removeDevicesLoop name removeRes n (i + 1)
      (deviceName :: r.1, r.2)

/-- `removeNetworkFromConfig` from onos-topo.go: unchecked
`configMap.Items[0]` (nil list from a discarded query error, or an
empty list, panics), `yaml.Unmarshal` (error returned), unchecked
`m["numdevices"].(int)` type assertion (missing key or non-int value
panics), then the removal loop over `numdevices`. -/
def removeNetworkFromConfig (name : String)
    (configMaps : Option (List NetworkConfigMap))
    (removeRes : String → Option GoError) :
    GoOutcome (List String × Option GoError) :=
  match configMaps with
  | none => .panic "invalid memory address or nil pointer dereference"
  | some [] => .panic "index out of range [0] with length 0"
  | some (item :: _) =>
    match item.config with
    | .error e => .ret ([], some e)
    | .ok m =>
      match m.lookup "numdevices" with
      | some (.yint n) => .ret (removeDevicesLoop name removeRes n.toNat 0)
      | _ => .panic "interface conversion: interface \x7b\x7d is not int"

/-- Observable outcome of `RemoveNetwork`: the returned status, the
trace of `removeDevice` calls, the errors passed to `status.Fail`, and
the steps run. -/
structure RemoveNetworkResult where
  status : ErrorStatus
  removedDevices : List String
  recordedFails : List GoError
  stepsRun : List LifecycleStep
deriving DecidableEq, Repr

/-- `RemoveNetwork` from cluster.go: the labelled ConfigMap list query
error is discarded (leaving a nil list); a `teardownNetwork` error is
passed to `status.Fail` but not returned; `removeNetworkFromConfig`
always runs and only its error is returned as a failure (its panics
propagate). -/
def RemoveNetwork (name : String)
    (listRes : Except K8sError (List NetworkConfigMap))
    (teardownRes : Option GoError)
    (removeRes : String → Option GoError) : GoOutcome RemoveNetworkResult :=
  let configMaps : Option (List NetworkConfigMap) :=
    match listRes with
    | .error _ => none
    | .ok items => some items
  let fails1 : List GoError :=
    match teardownRes with
    | some e => [e]
    | none => []
  match removeNetworkFromConfig name configMaps removeRes with
  | .panic msg => .panic msg
  | .ret (devices, some e) =>
    .ret ⟨failStatus "Reconfiguring topology" e, devices, fails1 ++ [e],
          [.provision, .reconcile]⟩
  | .ret (devices, none) =>
    .ret ⟨succeedStatus, devices, fails1, [.provision, .reconcile]⟩

/-! ## addNetworkToTopo (onos-topo.go:430-444) -/

/-- The loop of `addNetworkToTopo`: device name `<name>-s<i>`, port
starting at 50001 and incremented by 1 per iteration, `addDevice` on
each, stopping at the first error.  Returns the trace of
`addDevice (name, port)` calls and the result. -/
def addNetworkToTopoLoop (name : String)
    (addRes : String → Int → Option GoError) :
    ℕ → ℕ → Int → List (String × Int) × Option GoError
  | 0, _, _ => ([], none)
  | n + 1, i, port =>
    let deviceName := name ++ "-s" ++ toString i
    match addRes deviceName port with
    | some e => ([(deviceName, port)], some e)
    | none =>
      let r := addNetworkToTopoLoop name addRes n (i + 1) (port + 1)
      ((deviceName, port) :: r.1, r.2)

/-- `addNetworkToTopo` from onos-topo.go: iterate `i` from 0 to
`config.NumDevices - 1` with `port` starting at 50001. -/
def addNetworkToTopo (name : String) (NumDevices : Int)
    (addRes : String → Int → Option GoError) :
    List (String × Int) × Option GoError :=
  addNetworkToTopoLoop name addRes NumDevices.toNat 0 50001

/-! ## RunTests (cluster.go:288-328) -/

/-- The test pod `startTests` returns. -/
structure TestPod where
  name : String
deriving DecidableEq, Repr

/-- The environment `RunTests` runs against: the result of starting the
test job, the log stream (an open error, or the chunks successfully
read followed by `none` for EOF or `some e` for a read error), and the
result of retrieving the pod's terminal status (message, exit code). -/
structure RunTestsEnv where
  startRes : Except GoError TestPod
  streamRes : Except GoError (List String × Option GoError)
  statusRes : Except GoError (String × Int)

/-- Observable outcome of `RunTests`: the returned message and exit
code, the log chunks copied to stdout, the errors passed to
`status.Fail` during the call, and the effective timeout (after the
10-minute default for 0). -/
structure RunTestsResult where
  message : String
  exitCode : Int
  output : List String
  recordedFails : List GoError
  effectiveTimeout : Int
deriving DecidableEq, Repr

/-- The duration `10 * time.Minute` in nanoseconds. -/
def tenMinutes : Int := 600000000000

/-- `RunTests` from cluster.go: default the timeout, start the job
(error → `status.Fail`), open the log stream (error → return `"", 0`
with the accumulated status, no `Fail`), copy chunks to stdout (read
error other than EOF → same), then retrieve the terminal status (error
→ `"failed to retrieve exit code", 1`). -/
def RunTests (timeout : Int) (env : RunTestsEnv) : RunTestsResult :=
  let effective := if timeout = 0 then tenMinutes else timeout
  match env.startRes with
  | .error e => ⟨"", 0, [], [e], effective⟩
  | .ok _pod =>
    match env.streamRes with
    | .error _e => ⟨"", 0, [], [], effective⟩
    | .ok (chunks, readErr) =>
      match readErr with
      | some _e => ⟨"", 0, chunks, [], effective⟩
      | none =>
        match env.statusRes with
        | .error _e => ⟨"failed to retrieve exit code", 1, chunks, [], effective⟩
        | .ok (message, code) => ⟨message, code, chunks, [], effective⟩

/-! ## GetResources (cluster.go:331-353) -/

/-- A pod as `GetResources` sees it: its name. -/
structure Pod where
  name : String
deriving DecidableEq, Repr

/-- `GetResources` from cluster.go: get the pod by exact name (success
→ `[pod.Name]`; an error other than not-found is returned), else list
pods with label `resource=<name>` (query error returned; empty result
→ error `unknown test resource <name>`; else the pod names). -/
def GetResources (name : String) (getRes : Except K8sError Pod)
    (listRes : Except K8sError (List Pod)) : Except GoError (List String) :=
  match getRes with
  | .ok pod => .ok [pod.name]
  | .error e =>
    if e.isNotFound = false then
      .error e.msg
    else
      match listRes with
      | .error e2 => .error e2.msg
      | .ok pods =>
        if pods.length = 0 then .error ("unknown test resource " ++ name)
        else .ok (pods.map Pod.name)

/-! ## Concrete fixtures used by individual claims -/

/-- A pod of the onos-topo deployment observed with its first container
running. -/
def topoRunningPod : PodObs := ⟨"onos-topo-5d4f7b9c-xk2pq", true⟩

/-- A poll environment in which the single onos-topo pod is running and
the deployment reports 1 ready replica from the first poll, and the
debugger-attach exec succeeds. -/
def topoAwaitEnvW : TopoAwaitEnv :=
  ⟨fun _ => ⟨.ok [topoRunningPod], .ok 1⟩, fun _ => none⟩

/-- A cluster configuration whose config-service tag is the debug
sentinel while the topology-service tag is "latest". -/
def cfgConfigDebug : ClusterConfig :=
  ⟨"", "default", fun component => if component = "config" then "debug" else "latest",
   1, 1, 1, 1⟩

/-- A cluster configuration whose topology-service tag is the debug
sentinel while the config-service tag is "latest". -/
def cfgTopoDebug : ClusterConfig :=
  ⟨"", "default", fun component => if component = "topo" then "debug" else "latest",
   1, 1, 1, 1⟩

/-! # Theorems -/

theorem runSetupSteps_allOk (l : List (String × Option GoError))
    (h : ∀ p ∈ l, p.2 = none) :
    runSetupSteps l = (succeedStatus, l.map Prod.fst) := by
  induction l with
  | nil => rfl
  | cons p rest ih =>
    obtain ⟨label, res⟩ := p
    have hres : res = none := h _ (List.mem_cons_self _ _)
    subst hres
    simp [runSetupSteps, ih fun q hq => h q (List.mem_cons_of_mem _ hq)]

theorem runSetupSteps_failAt (l : List (String × Option GoError))
    (K : ℕ) (e : GoError)
    (hbefore : ∀ j, j < K → (l.getD j ("", none)).2 = none)
    (hfail : (l.getD K ("", none)).2 = some e) :
    runSetupSteps l =
      (failStatus (l.getD K ("", none)).1 e,
       (l.take (K + 1)).map Prod.fst) := by
  induction l generalizing K with
  | nil => simp [List.getD] at hfail
  | cons p rest ih =>
    obtain ⟨label, res⟩ := p
    cases K with
    | zero =>
      simp only [List.getD_cons_zero] at hfail
      simp [runSetupSteps, hfail]
    | succ K =>
      have hres : res = none := hbefore 0 (Nat.succ_pos _)
      subst hres
      have ih' := ih K
        (fun j hj => hbefore (j + 1) (Nat.succ_lt_succ hj)) hfail
      simp [runSetupSteps, ih']

/-- C1: for every step K of the nine-step Setup sequence, if the
gateway fails at step K (all earlier steps succeeding) then Setup
invokes no builder after step K, returns a status whose `Failed()` is
true and whose recorded label is step K's label; and if no step fails,
Setup returns a success status after invoking all nine builders in
order. -/
theorem setup_sequence_correct (g : SetupGateway) :
    (∀ K e, K < 9 →
      (∀ j, j < K → ((setupStepList g).getD j ("", none)).2 = none) →
      ((setupStepList g).getD K ("", none)).2 = some e →
      (Setup g).1.Failed = true ∧
      (Setup g).1.label = some (setupLabels.getD K "") ∧
      (Setup g).2 = setupLabels.take (K + 1)) ∧
    ((∀ p ∈ setupStepList g, p.2 = none) →
      (Setup g).1.Failed = false ∧ (Setup g).2 = setupLabels) := by
  constructor
  · intro K e hK hbefore hfail
    have h := runSetupSteps_failAt (setupStepList g) K e hbefore hfail
    have hlabel : ((setupStepList g).getD K ("", none)).1 = setupLabels.getD K "" := by
      interval_cases K <;> rfl
    have htake : ((setupStepList g).take (K + 1)).map Prod.fst = setupLabels.take (K + 1) := by
      interval_cases K <;> rfl
    refine ⟨?_, ?_, ?_⟩
    · simp [Setup, h, ErrorStatus.Failed, failStatus]
    · have h1 : (Setup g).1 = failStatus ((setupStepList g).getD K ("", none)).1 e := by
        rw [Setup, h]
      rw [h1, hlabel]
      rfl
    · simp [Setup, h, htake]
  · intro hall
    have h := runSetupSteps_allOk (setupStepList g) hall
    constructor
    · simp [Setup, h, ErrorStatus.Failed, succeedStatus]
    · simp [Setup, h]
      rfl

/-- Witness for C1 at a gateway failing on step 2 (Raft partitions). -/
theorem setup_sequence_correct_witness :
    (Setup ⟨none, none, some "boom", none, none, none, none, none, none⟩).1.Failed = true ∧
    (Setup ⟨none, none, some "boom", none, none, none, none, none, none⟩).1.label =
      some "Starting Raft partitions" ∧
    (Setup ⟨none, none, some "boom", none, none, none, none, none, none⟩).2 =
      ["Setting up RBAC", "Setting up Atomix controller", "Starting Raft partitions"] := by
  have h := (setup_sequence_correct
    ⟨none, none, some "boom", none, none, none, none, none, none⟩).1 2 "boom"
    (by decide) (by decide) (by decide)
  exact ⟨h.1, h.2.1, h.2.2⟩

/-- C9: `imageName(img, tag)` is `img ++ ":" ++ tag` when the registry
is empty and `registry ++ "/" ++ img ++ ":" ++ tag` otherwise. -/
theorem imageName_fully_qualified (registry image tag : String) :
    (registry = "" → imageName registry image tag = image ++ ":" ++ tag) ∧
    (registry ≠ "" →
      imageName registry image tag = registry ++ "/" ++ image ++ ":" ++ tag) := by
  constructor
  · intro h
    simp [imageName, imagePrefix, h]
  · intro h
    simp [imageName, imagePrefix, h]

/-- Witness for C9 at concrete registry, image and tag values. -/
theorem imageName_fully_qualified_witness :
    imageName "" "onosproject/onos-topo" "latest" = "onosproject/onos-topo:latest" ∧
    imageName "my.registry:5000" "onosproject/onos-topo" "latest" =
      "my.registry:5000/onosproject/onos-topo:latest" := by
  constructor
  · exact (imageName_fully_qualified "" "onosproject/onos-topo" "latest").1 rfl
  · exact (imageName_fully_qualified "my.registry:5000" "onosproject/onos-topo" "latest").2
      (by decide)

theorem range_succ_map_shift {α : Type} (f : ℕ → α) (n : ℕ) :
    (List.range (n + 1)).map f = f 0 :: (List.range n).map (fun k => f (k + 1)) := by
  rw [List.range_succ_eq_map, List.map_cons, List.map_map]
  rfl

theorem removeDevicesLoop_allOk (name : String) (rm : String → Option GoError)
    (hok : ∀ d, rm d = none) :
    ∀ (n i : ℕ), removeDevicesLoop name rm n i =
      ((List.range n).map (fun k => name ++ "-s" ++ toString (i + k)), none) := by
  intro n
  induction n with
  | zero => intro i; rfl
  | succ n ih =>
    intro i
    rw [range_succ_map_shift]
    have harg : ∀ k : ℕ, i + 1 + k = i + (k + 1) := by omega
    simp only [removeDevicesLoop, hok, ih (i + 1), harg, Nat.add_zero]

theorem addNetworkToTopoLoop_allOk (name : String)
    (addRes : String → Int → Option GoError)
    (hok : ∀ d p, addRes d p = none) :
    ∀ (n i : ℕ) (port : Int), addNetworkToTopoLoop name addRes n i port =
      ((List.range n).map
         (fun k => (name ++ "-s" ++ toString (i + k), port + (k : Int))), none) := by
  intro n
  induction n with
  | zero => intro i port; rfl
  | succ n ih =>
    intro i port
    rw [range_succ_map_shift]
    have harg : ∀ k : ℕ, i + 1 + k = i + (k + 1) := by omega
    have hport : ∀ k : ℕ, port + 1 + (k : Int) = port + ((k : Int) + 1) := by
      intro k
      ring
    simp only [addNetworkToTopoLoop, hok, ih (i + 1) (port + 1), harg, hport,
      Nat.add_zero, Nat.cast_add, Nat.cast_zero, Nat.cast_one, add_zero]

/-- C2 counterexample: an "already exists" error from the cluster role
binding create is not swallowed — `setupRBAC` aborts with it, so not
every creation during setup treats "already exists" as success. -/
theorem rbac_already_exists_abort_cex :
    setupRBAC none (some ⟨"already exists", true, false⟩) none =
      some ⟨"already exists", true, false⟩ ∧
    createOnosTopoConfigMap (some ⟨"already exists", true, false⟩) ≠ none := by
  decide

/-- C2 amended: only the cluster role creation swallows "already
exists"; the cluster role binding, service account, and the onos-topo
config map / service / deployment creations return every create error
verbatim — including "already exists" — aborting the calling step. -/
theorem already_exists_swallowed_only_cluster_role (e : K8sError)
    (roleRes accountRes : Option K8sError) :
    (e.isAlreadyExists = true → createClusterRole (some e) = none) ∧
    (e.isAlreadyExists = false → createClusterRole (some e) = some e) ∧
    createClusterRoleBinding (some e) = some e ∧
    createServiceAccount (some e) = some e ∧
    createOnosTopoConfigMap (some e) = some e ∧
    createOnosTopoService (some e) = some e ∧
    createOnosTopoDeployment (some e) = some e ∧
    (createClusterRole roleRes = none →
      setupRBAC roleRes (some e) accountRes = some e) := by
  refine ⟨?_, ?_, rfl, rfl, rfl, rfl, rfl, ?_⟩
  · intro h
    simp [createClusterRole, h]
  · intro h
    simp [createClusterRole, h]
  · intro h
    simp [setupRBAC, h, createClusterRoleBinding]

/-- Witness for the amended C2 at a concrete "already exists" error. -/
theorem already_exists_swallowed_only_cluster_role_witness :
    createClusterRole (some ⟨"already exists", true, false⟩) = none ∧
    createClusterRoleBinding (some ⟨"already exists", true, false⟩) =
      some ⟨"already exists", true, false⟩ ∧
    setupRBAC none (some ⟨"already exists", true, false⟩) none =
      some ⟨"already exists", true, false⟩ := by
  have h := already_exists_swallowed_only_cluster_role
    ⟨"already exists", true, false⟩ none none
  exact ⟨h.1 rfl, h.2.2.1, h.2.2.2.2.2.2.2 rfl⟩

/-- C3 (code bug): the debugger-attach condition in
`awaitOnosTopoDeploymentReady` reads `ImageTags["config"]`, not the
topology service's tag.  With topo tag "latest" and config tag "debug"
the wait executes the attach command on the newly running onos-topo
pod, and with topo tag "debug" and config tag "latest" it executes
none — the opposite of keying on the topology service's tag.  The wait
still returns only once `ReadyReplicas` equals `TopoNodes`. -/
theorem await_topo_attach_keyed_on_config_tag :
    cfgConfigDebug.ImageTags "topo" ≠ Debug ∧
    awaitOnosTopoDeploymentReady cfgConfigDebug topoAwaitEnvW 1 =
      (.ret none, ⟨[topoRunningPod.name], [topoRunningPod.name]⟩) ∧
    cfgTopoDebug.ImageTags "topo" = Debug ∧
    awaitOnosTopoDeploymentReady cfgTopoDebug topoAwaitEnvW 1 =
      (.ret none, ⟨[topoRunningPod.name], []⟩) := by
  refine ⟨by decide, by decide, by decide, by decide⟩

/-- C4 counterexample: when `setupSimulator` fails, `AddSimulator`
returns `status.Fail(err)` immediately — the topology reconciliation
step does not run, contrary to the claimed continue-and-record policy
for the Add operations. -/
theorem add_simulator_skips_reconcile_cex :
    (AddSimulator (some "simulator setup failed") none).stepsRun =
      [LifecycleStep.provision] ∧
    LifecycleStep.reconcile ∉
      (AddSimulator (some "simulator setup failed") none).stepsRun ∧
    (AddSimulator (some "simulator setup failed") none).status.Failed = true := by
  decide

/-- C4 amended: the continue-and-record two-step policy holds only for
the Remove operations: `RemoveSimulator` and `RemoveNetwork` record a
first-step (teardown) failure but still run the topology
reconciliation step, and return a failure only when that second step
fails; `AddSimulator` and `AddNetwork` instead return immediately on a
first-step failure, never running their topology step. -/
theorem lifecycle_two_step_policy :
    (∀ e s2, AddSimulator (some e) s2 =
       ⟨failStatus "Setting up simulator" e, [.provision], [e]⟩) ∧
    (∀ e s2, AddNetwork (some e) s2 =
       ⟨failStatus "Setting up network" e, [.provision], [e]⟩) ∧
    (∀ s1 s2,
       (RemoveSimulator s1 s2).stepsRun = [.provision, .reconcile] ∧
       (∀ e, s1 = some e → e ∈ (RemoveSimulator s1 s2).recordedFails) ∧
       ((RemoveSimulator s1 s2).status.Failed = true ↔ s2.isSome = true)) ∧
    (∀ name item rest m M teardownRes removeRes,
       item.config = .ok m →
       m.lookup "numdevices" = some (.yint M) →
       ∃ r, RemoveNetwork name (.ok (item :: rest)) teardownRes removeRes = .ret r ∧
         r.stepsRun = [.provision, .reconcile] ∧
         (∀ e, teardownRes = some e → e ∈ r.recordedFails) ∧
         (r.status.Failed = true ↔
           (removeDevicesLoop name removeRes M.toNat 0).2.isSome = true)) := by
  refine ⟨fun e s2 => rfl, fun e s2 => rfl, ?_, ?_⟩
  · intro s1 s2
    refine ⟨?_, ?_, ?_⟩
    · cases s1 <;> cases s2 <;> rfl
    · intro e he
      subst he
      cases s2 <;> simp [RemoveSimulator]
    · cases s1 <;> cases s2 <;>
        simp [RemoveSimulator, ErrorStatus.Failed, failStatus, succeedStatus]
  · intro name item rest m M teardownRes removeRes hitem hnum
    simp only [RemoveNetwork, removeNetworkFromConfig, hitem, hnum]
    cases hloop : removeDevicesLoop name removeRes M.toNat 0 with
    | mk devices res =>
      cases res with
      | none =>
        refine ⟨_, rfl, rfl, ?_, ?_⟩
        · intro e he
          subst he
          simp
        · simp [ErrorStatus.Failed, succeedStatus]
      | some e2 =>
        refine ⟨_, rfl, rfl, ?_, ?_⟩
        · intro e he
          subst he
          simp
        · simp [ErrorStatus.Failed, failStatus]

/-- Witness for the amended C4 at concrete step results. -/
theorem lifecycle_two_step_policy_witness :
    AddSimulator (some "boom") none =
      ⟨failStatus "Setting up simulator" "boom", [.provision], ["boom"]⟩ ∧
    (RemoveSimulator (some "tear") none).stepsRun =
      [LifecycleStep.provision, LifecycleStep.reconcile] ∧
    ∃ r, RemoveNetwork "net1" (.ok [⟨.ok [("numdevices", .yint 2)]⟩])
        (some "tear") (fun _ => none) = .ret r ∧
      r.stepsRun = [LifecycleStep.provision, LifecycleStep.reconcile] ∧
      "tear" ∈ r.recordedFails := by
  have h := lifecycle_two_step_policy
  refine ⟨h.1 "boom" none, (h.2.2.1 (some "tear") none).1, ?_⟩
  obtain ⟨r, hr, hsteps, hfails, _⟩ :=
    h.2.2.2 "net1" ⟨.ok [("numdevices", .yint 2)]⟩ []
      [("numdevices", .yint 2)] 2 (some "tear") (fun _ => none) rfl rfl
  exact ⟨r, hr, hsteps, hfails "tear" rfl⟩

/-- C5: in `RunTests`, an error opening the log stream or reading from
it makes the call return message `""`, exit code `0` and the
accumulated status, recording no step failure and no distinct code; an
error retrieving the pod's terminal status returns the fixed message
"failed to retrieve exit code" and exit code `1`. -/
theorem runtests_error_paths (timeout : Int) (env : RunTestsEnv) (pod : TestPod)
    (hstart : env.startRes = .ok pod) :
    (∀ e, env.streamRes = .error e →
       RunTests timeout env =
         ⟨"", 0, [], [], if timeout = 0 then tenMinutes else timeout⟩) ∧
    (∀ chunks e, env.streamRes = .ok (chunks, some e) →
       RunTests timeout env =
         ⟨"", 0, chunks, [], if timeout = 0 then tenMinutes else timeout⟩) ∧
    (∀ chunks e, env.streamRes = .ok (chunks, none) → env.statusRes = .error e →
       RunTests timeout env =
         ⟨"failed to retrieve exit code", 1, chunks, [],
          if timeout = 0 then tenMinutes else timeout⟩) := by
  refine ⟨?_, ?_, ?_⟩
  · intro e hstream
    simp [RunTests, hstart, hstream]
  · intro chunks e hstream
    simp [RunTests, hstart, hstream]
  · intro chunks e hstream hstatus
    simp [RunTests, hstart, hstream, hstatus]

/-- Witness for C5 at concrete environments: a stream-open error, a
mid-stream read error, and a terminal-status error. -/
theorem runtests_error_paths_witness :
    RunTests 0 ⟨.ok ⟨"onos-test-t1"⟩, .error "stream open failed", .ok ("passed", 0)⟩ =
      ⟨"", 0, [], [], tenMinutes⟩ ∧
    RunTests 5 ⟨.ok ⟨"onos-test-t1"⟩, .ok (["truncated output"], some "read failed"),
        .ok ("passed", 0)⟩ =
      ⟨"", 0, ["truncated output"], [], 5⟩ ∧
    RunTests 0 ⟨.ok ⟨"onos-test-t1"⟩, .ok (["all output"], none),
        .error "pod status unavailable"⟩ =
      ⟨"failed to retrieve exit code", 1, ["all output"], [], tenMinutes⟩ := by
  refine ⟨?_, ?_, ?_⟩
  · have h := (runtests_error_paths 0
      ⟨.ok ⟨"onos-test-t1"⟩, .error "stream open failed", .ok ("passed", 0)⟩
      ⟨"onos-test-t1"⟩ rfl).1 "stream open failed" rfl
    simpa using h
  · have h := (runtests_error_paths 5
      ⟨.ok ⟨"onos-test-t1"⟩, .ok (["truncated output"], some "read failed"),
       .ok ("passed", 0)⟩ ⟨"onos-test-t1"⟩ rfl).2.1 ["truncated output"] "read failed" rfl
    simpa using h
  · have h := (runtests_error_paths 0
      ⟨.ok ⟨"onos-test-t1"⟩, .ok (["all output"], none),
       .error "pod status unavailable"⟩ ⟨"onos-test-t1"⟩ rfl).2.2 ["all output"]
      "pod status unavailable" rfl rfl
    simpa using h

/-- C6: when the stored config map's configuration reports
`numdevices = M` and the removals succeed, `RemoveNetwork` issues
exactly M `removeDevice` calls named `<name>-s0 .. <name>-s(M-1)`, for
any outcome of the preceding teardown step. -/
theorem remove_network_count_devices (name : String) (M : Int) (_hM : 0 ≤ M)
    (item : NetworkConfigMap) (rest : List NetworkConfigMap)
    (m : List (String × YamlVal)) (teardownRes : Option GoError)
    (removeRes : String → Option GoError)
    (hitem : item.config = .ok m)
    (hnum : m.lookup "numdevices" = some (.yint M))
    (hok : ∀ d, removeRes d = none) :
    RemoveNetwork name (.ok (item :: rest)) teardownRes removeRes =
      .ret ⟨succeedStatus,
            (List.range M.toNat).map (fun i => name ++ "-s" ++ toString i),
            (match teardownRes with
             | some e => [e]
             | none => []),
            [.provision, .reconcile]⟩ ∧
    ((List.range M.toNat).map (fun i => name ++ "-s" ++ toString i)).length =
      M.toNat := by
  have hloop := removeDevicesLoop_allOk name removeRes hok M.toNat 0
  constructor
  · simp only [RemoveNetwork, removeNetworkFromConfig, hitem, hnum, hloop]
    simp
  · simp

/-- Witness for C6 with `numdevices = 3` and a failed teardown. -/
theorem remove_network_count_devices_witness :
    RemoveNetwork "net1" (.ok [⟨.ok [("numdevices", .yint 3)]⟩])
        (some "teardown failed") (fun _ => none) =
      .ret ⟨succeedStatus, ["net1-s0", "net1-s1", "net1-s2"], ["teardown failed"],
            [.provision, .reconcile]⟩ := by
  have h := remove_network_count_devices "net1" 3 (by decide)
    ⟨.ok [("numdevices", .yint 3)]⟩ [] [("numdevices", .yint 3)]
    (some "teardown failed") (fun _ => none) rfl rfl (fun d => rfl)
  rw [h.1]
  decide

/-- C7: `GetResources(name)` returns `[name]` when a pod of exactly
that name exists; when the exact lookup reports not-found it returns
the names of the pods carrying label `resource=<name>`; and when that
list is empty it fails with "unknown test resource <name>". -/
theorem get_resources_lookup (name : String) (getRes : Except K8sError Pod)
    (listRes : Except K8sError (List Pod)) :
    (∀ pod, getRes = .ok pod → pod.name = name →
       GetResources name getRes listRes = .ok [name]) ∧
    (∀ e pods, getRes = .error e → e.isNotFound = true → listRes = .ok pods →
       pods ≠ [] → GetResources name getRes listRes = .ok (pods.map Pod.name)) ∧
    (∀ e, getRes = .error e → e.isNotFound = true → listRes = .ok [] →
       GetResources name getRes listRes =
         .error ("unknown test resource " ++ name)) := by
  refine ⟨?_, ?_, ?_⟩
  · intro pod hget hname
    subst hname
    simp [GetResources, hget]
  · intro e pods hget hnf hlist hne
    simp [GetResources, hget, hnf, hlist, List.length_eq_zero, hne]
  · intro e hget hnf hlist
    simp [GetResources, hget, hnf, hlist]

/-- Witness for C7 at concrete lookup results: exact hit, label
fallback, and the unknown-resource error. -/
theorem get_resources_lookup_witness :
    GetResources "onos-topo" (.ok ⟨"onos-topo"⟩) (.ok []) = .ok ["onos-topo"] ∧
    GetResources "onos-topo" (.error ⟨"not found", false, true⟩)
        (.ok [⟨"onos-topo-1"⟩, ⟨"onos-topo-2"⟩]) =
      .ok ["onos-topo-1", "onos-topo-2"] ∧
    GetResources "bogus" (.error ⟨"not found", false, true⟩) (.ok []) =
      .error "unknown test resource bogus" := by
  refine ⟨?_, ?_, ?_⟩
  · exact (get_resources_lookup "onos-topo" (.ok ⟨"onos-topo"⟩) (.ok [])).1
      ⟨"onos-topo"⟩ rfl rfl
  · have h := (get_resources_lookup "onos-topo" (.error ⟨"not found", false, true⟩)
      (.ok [⟨"onos-topo-1"⟩, ⟨"onos-topo-2"⟩])).2.1 ⟨"not found", false, true⟩
      [⟨"onos-topo-1"⟩, ⟨"onos-topo-2"⟩] rfl rfl rfl (by decide)
    rw [h]
    rfl
  · exact (get_resources_lookup "bogus" (.error ⟨"not found", false, true⟩)
      (.ok [])).2.2 ⟨"not found", false, true⟩ rfl rfl rfl

theorem addNetworkToTopoLoop_failAt (name : String)
    (addRes : String → Int → Option GoError) (e : GoError) :
    ∀ (n j i : ℕ) (port : Int), j < n →
      (∀ k, k < j →
        addRes (name ++ "-s" ++ toString (i + k)) (port + (k : Int)) = none) →
      addRes (name ++ "-s" ++ toString (i + j)) (port + (j : Int)) = some e →
      addNetworkToTopoLoop name addRes n i port =
        ((List.range (j + 1)).map
           (fun k => (name ++ "-s" ++ toString (i + k), port + (k : Int))),
         some e) := by
  intro n
  induction n with
  | zero =>
    intro j i port hj
    exact absurd hj (Nat.not_lt_zero j)
  | succ n ih =>
    intro j i port hj hok hbad
    cases j with
    | zero =>
      have hbad0 : addRes (name ++ "-s" ++ toString i) port = some e := by
        simpa using hbad
      rw [range_succ_map_shift]
      simp [addNetworkToTopoLoop, hbad0]
    | succ j =>
      have h0 : addRes (name ++ "-s" ++ toString i) port = none := by
        simpa using hok 0 (Nat.succ_pos j)
      have hok1 : ∀ k, k < j →
          addRes (name ++ "-s" ++ toString (i + 1 + k)) (port + 1 + (k : Int)) = none := by
        intro k hk
        have h1 := hok (k + 1) (Nat.succ_lt_succ hk)
        have e1 : i + (k + 1) = i + 1 + k := by omega
        have e2 : port + ((k : Int) + 1) = port + 1 + (k : Int) := by ring
        rw [e1] at h1
        push_cast at h1
        rw [e2] at h1
        exact h1
      have hbad1 :
          addRes (name ++ "-s" ++ toString (i + 1 + j)) (port + 1 + (j : Int)) = some e := by
        have h1 := hbad
        have e1 : i + (j + 1) = i + 1 + j := by omega
        have e2 : port + ((j : Int) + 1) = port + 1 + (j : Int) := by ring
        rw [e1] at h1
        push_cast at h1
        rw [e2] at h1
        exact h1
      have ihx := ih j (i + 1) (port + 1) (Nat.lt_of_succ_lt_succ hj) hok1 hbad1
      rw [range_succ_map_shift]
      have harg : ∀ k : ℕ, i + 1 + k = i + (k + 1) := by omega
      have hport : ∀ k : ℕ, port + 1 + (k : Int) = port + ((k : Int) + 1) := by
        intro k
        ring
      simp only [addNetworkToTopoLoop, h0, ihx, harg, hport, Nat.add_zero,
        Nat.cast_add, Nat.cast_zero, Nat.cast_one, add_zero]

/-- C8: `addNetworkToTopo` with `NumDevices = N` issues exactly N
`addDevice` calls, the i-th with device name `<network>-s<i>` and port
`50001 + i` (ports strictly increasing by 1 from the fixed base), and
stops at the first `addDevice` error. -/
theorem add_network_device_calls (name : String) (NumDevices : Int)
    (addRes : String → Int → Option GoError) :
    ((∀ d p, addRes d p = none) →
       addNetworkToTopo name NumDevices addRes =
         ((List.range NumDevices.toNat).map
            (fun (i : ℕ) => (name ++ "-s" ++ toString i, 50001 + (i : Int))), none)) ∧
    (∀ (j : ℕ) e, j < NumDevices.toNat →
       (∀ k : ℕ, k < j →
         addRes (name ++ "-s" ++ toString k) (50001 + (k : Int)) = none) →
       addRes (name ++ "-s" ++ toString j) (50001 + (j : Int)) = some e →
       addNetworkToTopo name NumDevices addRes =
         ((List.range (j + 1)).map
            (fun (i : ℕ) => (name ++ "-s" ++ toString i, 50001 + (i : Int))), some e)) := by
  constructor
  · intro hok
    have h := addNetworkToTopoLoop_allOk name addRes hok NumDevices.toNat 0 50001
    simpa [addNetworkToTopo] using h
  · intro j e hj hok hbad
    have hok0 : ∀ k, k < j →
        addRes (name ++ "-s" ++ toString (0 + k)) ((50001 : Int) + (k : Int)) = none := by
      intro k hk
      simpa using hok k hk
    have hbad0 :
        addRes (name ++ "-s" ++ toString (0 + j)) ((50001 : Int) + (j : Int)) = some e := by
      simpa using hbad
    have h := addNetworkToTopoLoop_failAt name addRes e NumDevices.toNat j 0 50001
      hj hok0 hbad0
    simpa [addNetworkToTopo] using h

/-- Witness for C8: three devices all succeeding, and a run stopping at
a failure on the second device. -/
theorem add_network_device_calls_witness :
    addNetworkToTopo "net2" 3 (fun _ _ => none) =
      ([("net2-s0", 50001), ("net2-s1", 50002), ("net2-s2", 50003)], none) ∧
    addNetworkToTopo "net2" 3
        (fun d _ => if d = "net2-s1" then some "cli failed" else none) =
      ([("net2-s0", 50001), ("net2-s1", 50002)], some "cli failed") := by
  constructor
  · have h := (add_network_device_calls "net2" 3 (fun _ _ => none)).1
      (fun d p => rfl)
    rw [h]
    decide
  · have h := (add_network_device_calls "net2" 3
      (fun d _ => if d = "net2-s1" then some "cli failed" else none)).2 1 "cli failed"
      (by decide) (by decide) (by decide)
    rw [h]
    decide

/-- C10: `RemoveNetwork` returns a status only when the labelled
ConfigMap query yields at least one item whose stored configuration
carries an integer `numdevices`; a discarded query error (nil list),
an empty list, or a missing or non-integer `numdevices` makes the
reconciliation step panic on the unchecked `Items[0]` indexing or the
`.(int)` type assertion instead of producing a failed status. -/
theorem remove_network_wellformed_precondition (name : String)
    (teardownRes : Option GoError) (removeRes : String → Option GoError) :
    (∀ e, RemoveNetwork name (.error e) teardownRes removeRes =
       .panic "invalid memory address or nil pointer dereference") ∧
    (RemoveNetwork name (.ok []) teardownRes removeRes =
       .panic "index out of range [0] with length 0") ∧
    (∀ item rest m, item.config = .ok m → m.lookup "numdevices" = none →
       RemoveNetwork name (.ok (item :: rest)) teardownRes removeRes =
         .panic "interface conversion: interface \x7b\x7d is not int") ∧
    (∀ item rest m s, item.config = .ok m →
       m.lookup "numdevices" = some (.ystr s) →
       RemoveNetwork name (.ok (item :: rest)) teardownRes removeRes =
         .panic "interface conversion: interface \x7b\x7d is not int") ∧
    (∀ item rest m M, item.config = .ok m →
       m.lookup "numdevices" = some (.yint M) →
       ∃ r, RemoveNetwork name (.ok (item :: rest)) teardownRes removeRes =
         .ret r) := by
  refine ⟨?_, ?_, ?_, ?_, ?_⟩
  · intro e
    rfl
  · rfl
  · intro item rest m hitem hnum
    simp [RemoveNetwork, removeNetworkFromConfig, hitem, hnum]
  · intro item rest m s hitem hnum
    simp [RemoveNetwork, removeNetworkFromConfig, hitem, hnum]
  · intro item rest m M hitem hnum
    simp only [RemoveNetwork, removeNetworkFromConfig, hitem, hnum]
    cases hloop : removeDevicesLoop name removeRes M.toNat 0 with
    | mk devices res =>
      cases res with
      | none => exact ⟨_, rfl⟩
      | some e2 => exact ⟨_, rfl⟩

/-- Witness for C10 at concrete inputs: a discarded list error, an
empty list, a missing `numdevices`, a string-valued `numdevices`, and
a well-formed configuration. -/
theorem remove_network_wellformed_precondition_witness :
    RemoveNetwork "net3" (.error ⟨"list failed", false, false⟩) none (fun _ => none) =
      .panic "invalid memory address or nil pointer dereference" ∧
    RemoveNetwork "net3" (.ok []) none (fun _ => none) =
      .panic "index out of range [0] with length 0" ∧
    RemoveNetwork "net3" (.ok [⟨.ok []⟩]) none (fun _ => none) =
      .panic "interface conversion: interface \x7b\x7d is not int" ∧
    RemoveNetwork "net3" (.ok [⟨.ok [("numdevices", .ystr "2")]⟩]) none
        (fun _ => none) =
      .panic "interface conversion: interface \x7b\x7d is not int" ∧
    ∃ r, RemoveNetwork "net3" (.ok [⟨.ok [("numdevices", .yint 2)]⟩]) none
        (fun _ => none) = .ret r := by
  have h := remove_network_wellformed_precondition "net3" none (fun _ => none)
  refine ⟨h.1 ⟨"list failed", false, false⟩, h.2.1, ?_, ?_, ?_⟩
  · exact h.2.2.1 ⟨.ok []⟩ [] [] rfl rfl
  · exact h.2.2.2.1 ⟨.ok [("numdevices", .ystr "2")]⟩ [] [("numdevices", .ystr "2")]
      "2" rfl rfl
  · exact h.2.2.2.2 ⟨.ok [("numdevices", .yint 2)]⟩ [] [("numdevices", .yint 2)]
      2 rfl rfl
